import Mathlib

/-!
# Verification of the kform-dev/plugin host/guest bootstrap layer

Shallow embedding of `client.go` and `grpc_server.go` from the
kform-dev/plugin repository.  Go strings are modelled as Lean `String`
(lists of characters where convenient), byte slices as `List Nat`
(each entry < 256 in practice), Go's `error` results as `Option` /
`Except` values, and the mutable `Client` receiver as explicit state
passing.  External collaborators (the Runner, the OS file system, the
x509 parser, the structured-log JSON parser) are modelled as explicit
parameters, so every theorem about the embedded functions quantifies
over their behaviour.
-/

namespace Plugin

/-! ## Byte and string helpers -/

/-- Go `strings.SplitN(s, sep, n)` on a single-character separator, for
`n > 0`: at most `n` substrings; the last substring holds the unsplit
remainder.  Mirrors the call `strings.SplitN(line, "|", 6)` in
`Client.Start`. -/
def splitNChars (sep : Char) : List Char → Nat → List Char → List (List Char)
  | [], _, acc => [acc.reverse]
  | c :: cs, n, acc =>
    if n ≤ 1 then
      [acc.reverse ++ (c :: cs)]
    else if c = sep then
      acc.reverse :: splitNChars sep cs (n - 1) []
    else
      splitNChars sep cs n (c :: acc)

/-- `strings.SplitN` over `String`, fixed one-character separator. -/
def splitN (s : String) (sep : Char) (n : Nat) : List String :=
  (splitNChars sep s.toList n []).map (fun l => ⟨l⟩)

/-- Go `unicode.IsSpace` restricted to the ASCII space characters a
handshake line can carry. -/
def isGoSpace (c : Char) : Bool :=
  c = ' ' || c = '\t' || c = '\n' || c = '\u000b' || c = '\u000c' || c = '\r'

/-- Go `strings.TrimSpace`. -/
def goTrimSpace (s : String) : String :=
  ⟨((s.toList.dropWhile isGoSpace).reverse.dropWhile isGoSpace).reverse⟩

/-- Go `strings.HasPrefix`. -/
def goHasPrefix (s pre : String) : Bool :=
  pre.toList.isPrefixOf s.toList

/-- Decimal value of a digit string. -/
def digitsToNat (ds : List Char) : Nat :=
  ds.foldl (fun n c => n * 10 + (c.toNat - '0'.toNat)) 0

/-- Go `strconv.Atoi`: optional sign followed by at least one decimal
digit; anything else is an error (`none`).  Overflow is not modelled
(versions are small). -/
def goAtoi (s : String) : Option Int :=
  match s.toList with
  | [] => none
  | '-' :: ds =>
    if ds ≠ [] ∧ ds.all Char.isDigit then
      some (-(Int.ofNat (digitsToNat ds)))
    else none
  | '+' :: ds =>
    if ds ≠ [] ∧ ds.all Char.isDigit then
      some (Int.ofNat (digitsToNat ds))
    else none
  | ds =>
    if ds ≠ [] ∧ ds.all Char.isDigit then
      some (Int.ofNat (digitsToNat ds))
    else none

/-! ## Base64 (Go `encoding/base64`)

`RawStdEncoding` (no padding) is what `loadServerCert` uses;
`StdEncoding` (padded) is what the spec's `GRPCServer.Config` round-trip
claim refers to. -/

/-- Value of a character in the standard base64 alphabet. -/
def b64Val (c : Char) : Option Nat :=
  if 'A' ≤ c ∧ c ≤ 'Z' then some (c.toNat - 'A'.toNat)
  else if 'a' ≤ c ∧ c ≤ 'z' then some (c.toNat - 'a'.toNat + 26)
  else if '0' ≤ c ∧ c ≤ '9' then some (c.toNat - '0'.toNat + 52)
  else if c = '+' then some 62
  else if c = '/' then some 63
  else none

/-- Go `base64.RawStdEncoding.DecodeString` on a character list:
unpadded base64; 4 characters decode to 3 bytes, a trailing group of 2
or 3 characters decodes to 1 or 2 bytes, a trailing group of 1
character is corrupt input.  (Go's default decoder does not check that
unused trailing bits are zero; neither does this model.) -/
def rawB64DecodeChars : List Char → Option (List Nat)
  | [] => some []
  | [_] => none
  | [c1, c2] => do
    let v1 ← b64Val c1
    let v2 ← b64Val c2
    pure [v1 * 4 + v2 / 16]
  | [c1, c2, c3] => do
    let v1 ← b64Val c1
    let v2 ← b64Val c2
    let v3 ← b64Val c3
    pure [v1 * 4 + v2 / 16, (v2 % 16) * 16 + v3 / 4]
  | c1 :: c2 :: c3 :: c4 :: rest => do
    let v1 ← b64Val c1
    let v2 ← b64Val c2
    let v3 ← b64Val c3
    let v4 ← b64Val c4
    let tl ← rawB64DecodeChars rest
    pure ([v1 * 4 + v2 / 16, (v2 % 16) * 16 + v3 / 4, (v3 % 4) * 64 + v4] ++ tl)

/-- `base64.RawStdEncoding.DecodeString` on a `String`. -/
def rawB64Decode (s : String) : Option (List Nat) :=
  rawB64DecodeChars s.toList

/-- Go `base64.StdEncoding.DecodeString`: padded standard base64.  The
input length must be a multiple of 4; `=` may appear only as the last
one or two characters of the final quantum. -/
def stdB64Decode (s : String) : Option (List Nat) :=
  let cs := s.toList
  if cs.length % 4 ≠ 0 then none
  else
    match cs.reverse with
    | '=' :: '=' :: rest => rawB64DecodeChars rest.reverse
    | '=' :: rest => rawB64DecodeChars rest.reverse
    | _ => rawB64DecodeChars cs

/-! ## SecureConfig (`client.go` lines 292–322)

Go's `hash.Hash` is a *stateful* accumulator: `Write` appends to the
absorbed stream and `Sum(nil)` returns the digest of everything
absorbed so far, without resetting.  `GoHash` models exactly that: the
absorbed byte stream plus the pure digest function of the particular
implementation. -/

structure GoHash where
  /-- Bytes absorbed so far by `Write` calls. -/
  state : List Nat
  /-- The digest of an absorbed stream; `Sum(nil)` returns
  `digest state`. -/
  digest : List Nat → List Nat

/-- `SecureConfig`: expected checksum and hash implementation
(`Hash = nil` is `none`). -/
structure SecureConfig where
  checksum : List Nat
  hash : Option GoHash

/-- The error values `Check` can return. -/
inductive CheckError where
  | noChecksum   -- ErrSecureConfigNoChecksum
  | noHash       -- ErrSecureConfigNoHash
  | io (msg : String)  -- error from os.Open / io.Copy
  deriving DecidableEq, Repr

/-- The OS file system as seen by `Check`: opening-and-reading a path
either yields the file's bytes or an I/O error.  (A read error after a
successful open is folded into the same `Except`; `Check` treats both
identically — it returns the underlying error.) -/
def FileSystem : Type := String → Except String (List Nat)

/-- `SecureConfig.Check` (`client.go` 299–322).  Returns the updated
`SecureConfig` (the hash state is mutated by `io.Copy(s.Hash, file)`),
the match boolean, and the error if any.
`subtle.ConstantTimeCompare(a, b) == 1` iff the two byte slices are
equal (it returns 0 on length mismatch). -/
def SecureConfig.check (s : SecureConfig) (fs : FileSystem) (filePath : String) :
    SecureConfig × Bool × Option CheckError :=
  if s.checksum.length = 0 then
    (s, false, some .noChecksum)
  else
    match s.hash with
    | none => (s, false, some .noHash)
    | some h =>
      match fs filePath with
      | .error e => (s, false, some (.io e))
      | .ok content =>
        let h' : GoHash := { h with state := h.state ++ content }
        let sum := h'.digest h'.state
        ({ s with hash := some h' }, decide (sum = s.checksum), none)

/-! ## checkProtoVersion and the handshake line (`client.go` 746–879)

`VersionedPlugins` is a Go `map[int]PluginSet`; we model it as an
association list (the iteration order of the model is the list order).
A `PluginSet` (`map[string]Plugin`) is modelled by the list of its
plugin names — the claims only need selection of the set, never the
plugin values. -/

def PluginSet : Type := List String

instance : DecidableEq PluginSet := by
  unfold PluginSet
  infer_instance

instance : Repr PluginSet :=
  inferInstanceAs (Repr (List String))

/-- `Client.checkProtoVersion` (`client.go` 857–879): parse the given
protocol-version string, then scan `VersionedPlugins` for an exact
match; on failure return the negotiation error naming the offered
version and all configured client versions. -/
inductive ProtoVersionResult where
  | ok (version : Int) (plugins : PluginSet)
  | parseErr (offered : String)
  | incompatible (serverVersion : Int) (clientVersions : List Int)
  deriving DecidableEq, Repr

/-- The version-scanning loop of `checkProtoVersion` (`client.go`
868–875), with the collected client versions accumulated for the error
message. -/
def checkProtoVersionScan (serverVersion : Int) :
    List (Int × PluginSet) → List Int → ProtoVersionResult
  | [], clientVersions => .incompatible serverVersion clientVersions.reverse
  | (version, plugins) :: rest, clientVersions =>
    if serverVersion = version then .ok version plugins
    else checkProtoVersionScan serverVersion rest (version :: clientVersions)

def checkProtoVersion (versionedPlugins : List (Int × PluginSet))
    (protoVersion : String) : ProtoVersionResult :=
  match goAtoi protoVersion with
  | none => .parseErr protoVersion
  | some serverVersion => checkProtoVersionScan serverVersion versionedPlugins []

/-- A resolved network address (`net.ResolveTCPAddr` /
`net.ResolveUnixAddr` results). -/
inductive NetAddr where
  | tcp (addr : String)
  | unix (addr : String)
  deriving DecidableEq, Repr

/-- External collaborators consulted while `Start` processes the
handshake line: the Runner's `PluginToHost` translation, the two
`net.Resolve*Addr` standard-library calls, and `x509.ParseCertificate`.
Each is modelled as an arbitrary function with the Go signature's
success/error shape. -/
structure HostEnv where
  pluginToHost : String → String → Except String (String × String)
  resolveTCP : String → Except String String
  resolveUnix : String → Except String String
  parseCert : List Nat → Except String Unit

/-- The identity environment: `PluginToHost` passes network/address
through unchanged (the default `cmdrunner` behaviour), resolution
succeeds verbatim, and certificate parsing accepts. -/
def idHostEnv : HostEnv where
  pluginToHost := fun network address => .ok (network, address)
  resolveTCP := fun a => .ok a
  resolveUnix := fun a => .ok a
  parseCert := fun _ => .ok ()

/-- The distinct error values `Start`'s handshake-processing branch can
return; each constructor corresponds to one Go format string and
carries the data interpolated into it. -/
inductive StartError where
  /-- `"error parsing protocol version %q: %s"` (from
  `checkProtoVersion`). -/
  | versionParse (offered : String)
  /-- `"incompatible API version with plugin. Plugin version: %d,
  Client versions: %d"` — names the offered server version and every
  configured client version. -/
  | negotiation (serverVersion : Int) (clientVersions : List Int)
  /-- Error propagated from `runner.PluginToHost`. -/
  | pluginToHost (msg : String)
  /-- `"tcp address error: %s"`. -/
  | tcpAddr (msg : String)
  /-- `"unix address error: %s"`. -/
  | unixAddr (msg : String)
  /-- `"unknown address type: %s"` (the Go code interpolates the
  *address*, not the network, into this message). -/
  | unknownNetwork (address : String)
  /-- `"error parsing server cert: %s"`. -/
  | serverCert (msg : String)
  deriving DecidableEq, Repr

/-- The outcome of the `case line := <-linesCh` branch of the `select`
in `Client.Start`: success (negotiated version and plugin set, resolved
address, whether a server certificate was installed), a returned error,
or a Go runtime panic (which `Start`'s deferred `recover` re-raises, so
it crashes the host). -/
inductive LineOutcome where
  | ok (version : Int) (plugins : PluginSet) (addr : NetAddr) (certTrusted : Bool)
  | err (e : StartError)
  | panicked (msg : String)
  deriving DecidableEq, Repr

/-- `Client.loadServerCert` (`client.go` 836–854): base64-RawStd-decode
the certificate field, parse it as x509, and install it as
RootCAs/ClientCAs (the installation is reported as the `certTrusted`
flag of `LineOutcome.ok`). -/
def loadServerCert (parseCert : List Nat → Except String Unit) (cert : String) :
    Except String Unit :=
  match rawB64Decode cert with
  | none => .error "illegal base64 data"
  | some asn1 =>
    match parseCert asn1 with
    | .error e => .error e
    | .ok _ => .ok ()

/-- The server-certificate gate in `Client.Start` (`client.go` 822):
`len(parts) >= 6 && len(parts[5]) > 50`.  The length test is on the
*encoded* sixth field.  Returns the field when the gate fires. -/
def certField (parts : List String) : Option String :=
  match parts.get? 5 with
  | some p5 => if p5.length > 50 then some p5 else none
  | none => none

/-- The tail of the handshake-line branch (`client.go` 819–828): after
the address is resolved, optionally load the server certificate. -/
def finishLine (henv : HostEnv) (version : Int) (plugins : PluginSet)
    (parts : List String) (addr : NetAddr) : LineOutcome :=
  match certField parts with
  | none => .ok version plugins addr false
  | some p5 =>
    match loadServerCert henv.parseCert p5 with
    | .error e => .err (.serverCert e)
    | .ok _ => .ok version plugins addr true

/-- The `case line := <-linesCh` branch of `Client.Start`
(`client.go` 746–828), translated statement by statement:
trim the line, `strings.SplitN(line, "|", 6)`, call
`checkProtoVersion("1")` — the source passes the hardcoded string
`"1"`, not the parsed second field; the `len(parts) < 4` guard present
in upstream go-plugin is commented out in this source, so
`parts[2]` / `parts[3]` are indexed unconditionally and a short line
panics — then translate the network/address through the Runner,
resolve it, and optionally trust the certificate field. -/
def processHandshakeLine (versionedPlugins : List (Int × PluginSet))
    (henv : HostEnv) (rawLine : String) : LineOutcome :=
  let line := goTrimSpace rawLine
  let parts := splitN line '|' 6
  match checkProtoVersion versionedPlugins "1" with
  | .parseErr s => .err (.versionParse s)
  | .incompatible sv cvs => .err (.negotiation sv cvs)
  | .ok version plugins =>
    match parts.get? 2, parts.get? 3 with
    | some p2, some p3 =>
      (match henv.pluginToHost p2 p3 with
      | .error e => .err (.pluginToHost e)
      | .ok (network, address) =>
        match network with
        | "tcp" =>
          match henv.resolveTCP address with
          | .error e => .err (.tcpAddr e)
          | .ok a => finishLine henv version plugins parts (.tcp a)
        | "unix" =>
          match henv.resolveUnix address with
          | .error e => .err (.unixAddr e)
          | .ok a => finishLine henv version plugins parts (.unix a)
        | _ => .err (.unknownNetwork address))
    | _, _ => .panicked "runtime error: index out of range"

/-! ## Client state (`client.go` 76–102, 126–244, 357–393) -/

/-- `UnixSocketConfig` (`client.go` 229–244). -/
structure UnixSocketConfig where
  group : String := ""
  tempDir : String := ""
  socketDir : String := ""
  deriving DecidableEq, Repr

/-- The fields of `ClientConfig` the verified behaviour depends on.
`Cmd`, `Reattach` and `RunnerFunc` are pointers whose only observable
property here is nil-ness (plus `Cmd.Path` for the integrity check);
sinks and the logger are modelled at the event-trace level. -/
structure ClientConfig where
  magicCookieKey : String := ""
  magicCookieValue : String := ""
  versionedPlugins : List (Int × PluginSet) := []
  cmdSet : Bool := false
  cmdPath : String := ""
  reattachSet : Bool := false
  runnerFuncSet : Bool := false
  secureConfig : Option SecureConfig := none
  tlsConfigSet : Bool := false
  managed : Bool := false
  minPort : Nat := 0
  maxPort : Nat := 0
  /-- `StartTimeout` in seconds; `0` means unset. -/
  startTimeout : Nat := 0
  autoMTLS : Bool := false
  skipHostEnv : Bool := false
  unixSocketConfig : Option UnixSocketConfig := none

/-- The mutable `Client` struct (`client.go` 76–102).  The runner handle
is represented by its `ID()` string; `none` is a nil runner. -/
structure Client where
  config : ClientConfig
  exited : Bool := false
  address : Option NetAddr := none
  runner : Option String := none
  negotiatedVersion : Int := 0
  negotiatedPlugins : PluginSet := []
  unixSocketCfg : UnixSocketConfig := {}
  serverCertTrusted : Bool := false
  processKilled : Bool := false

/-- `NewClient` (`client.go` 357–393): default the port range only when
*both* bounds are zero, default the start timeout to one minute, and
wrap the config in a fresh not-started `Client`.  (Replacing nil
writers/logger with discard sinks and appending to the managed-client
registry have no counterpart in this state model.) -/
def newClient (config : ClientConfig) : Client :=
  let config :=
    if config.minPort = 0 ∧ config.maxPort = 0 then
      { config with minPort := 10000, maxPort := 25000 }
    else config
  let config :=
    if config.startTimeout = 0 then { config with startTimeout := 60 }
    else config
  { config := config }

/-- The environment entries built at `client.go` 552–562: magic cookie,
port-range hints and the comma-joined supported-version list (the Go
map iteration order is the model's association-list order). -/
def clientEnv (config : ClientConfig) : List String :=
  let versions := config.versionedPlugins.map (fun p => toString p.1)
  [ config.magicCookieKey ++ "=" ++ config.magicCookieValue,
    "PLUGIN_MIN_PORT=" ++ toString config.minPort,
    "PLUGIN_MAX_PORT=" ++ toString config.maxPort,
    "PLUGIN_PROTOCOL_VERSIONS=" ++ String.intercalate "," versions ]

/-- Modelled from the spec: the names of the unix-socket group and
directory environment variables (`EnvUnixSocketGroup`,
`EnvUnixSocketDir`) are declared in repository files not provided
here; the spec only says "a unix-socket-group variable and a
unix-socket-directory variable" are set. -/
def envUnixSocketGroup : String := "PLUGIN_UNIX_SOCKET_GROUP"

/-- Modelled from the spec: see `envUnixSocketGroup`. -/
def envUnixSocketDir : String := "PLUGIN_UNIX_SOCKET_DIR"

/-! ## Client.Start (`client.go` 509–832) -/

/-- Which branch of the `select` at `client.go` 741 fires. -/
inductive RaceOutcome where
  | timeout
  | exitedEarly
  | line (l : String)

/-- External collaborators consulted by `Start`, each with the Go
result shape: the host OS environment, the file system (integrity
check), `generateCert`+`tls.X509KeyPair` (collapsed to one fallible
step yielding the certificate PEM), `os.MkdirTemp`,
`setGroupWritable`, the two runner constructors, `runner.Start`, the
handshake race outcome, and the handshake-line collaborators. -/
structure StartEnv where
  osEnviron : List String := []
  fs : FileSystem := fun _ => .error "enoent"
  generateCert : Except String String := .ok "CERTPEM"
  mkdirTemp : Except String String := .ok "/tmp/plugin-dir"
  setGroupWritableErr : Option String := none
  runnerFromFunc : Except String String := .ok "runner-1"
  cmdRunner : Except String String := .ok "pid-1"
  runnerStartErr : Option String := none
  race : RaceOutcome := .timeout
  host : HostEnv := idHostEnv

/-- The distinct failures `Start` can return, one constructor per Go
error site. -/
inductive StartFailure where
  /-- `"exactly one of Cmd, or Reattach, or RunnerFunc must be set"`. -/
  | configExclusive
  /-- `ErrSecureConfigAndReattach`. -/
  | secureAndReattach
  /-- `"error verifying checksum: %s"`. -/
  | checksumVerify (e : CheckError)
  /-- `ErrChecksumsDoNotMatch`. -/
  | checksumMismatch
  /-- certificate generation / parse failure under AutoMTLS. -/
  | mtls (msg : String)
  | mkdirTemp (msg : String)
  | setGroupWritable (msg : String)
  | runnerCreate (msg : String)
  | runnerStart (msg : String)
  /-- `"timeout while waiting for plugin to start"`. -/
  | startTimeout
  /-- `"plugin exited before we could connect"`. -/
  | exitedEarly
  /-- an error from the handshake-line branch. -/
  | line (e : StartError)
  deriving DecidableEq, Repr

/-- `Start`'s result: the returned address, a returned error, or an
uncaught panic (re-raised by the deferred `recover`). -/
inductive StartOut where
  | ok (addr : NetAddr)
  | err (e : StartFailure)
  | panicked (msg : String)
  deriving DecidableEq, Repr

/-- Everything one `Start` call produces: the returned value, the
updated client state, whether `runner.Start` was invoked (a spawn),
and the child environment (`cmd.Env`) as handed to the runner
constructor (`[]` when `Start` aborted before a runner was created). -/
structure StartResult where
  out : StartOut
  state : Client
  spawned : Bool := false
  childEnv : List String := []

/-- Phase 4 of `Start` (`client.go` 648–832): record the runner, start
it under the timeout context, race the handshake line against
timeout/early exit, and process the line.  The `Bool` of the result is
the spawn flag: `true` once `runner.Start` has been invoked. -/
def clientStartPhase4 (c : Client) (env : StartEnv) (childEnv : List String)
    (rid : String) : StartResult :=
  let c := { c with runner := some rid }
  match env.runnerStartErr with
  | some e => ⟨.err (.runnerStart e), c, true, childEnv⟩
  | none =>
    match env.race with
    | .timeout => ⟨.err .startTimeout, c, true, childEnv⟩
    | .exitedEarly => ⟨.err .exitedEarly, { c with exited := true }, true, childEnv⟩
    | .line l =>
      match processHandshakeLine c.config.versionedPlugins env.host l with
      | .err e => ⟨.err (.line e), c, true, childEnv⟩
      | .panicked m => ⟨.panicked m, c, true, childEnv⟩
      | .ok v ps addr trusted =>
        ⟨.ok addr,
         { c with address := some addr, negotiatedVersion := v,
                  negotiatedPlugins := ps, serverCertTrusted := trusted },
         true, childEnv⟩

/-- The runner-obtaining switch of `Start` (`client.go` 618–646):
either the `RunnerFunc` path — allocate the temporary socket
directory, make it group-writable when a group is configured, export
the directory variable, call the factory — or the default
`cmdrunner.NewCmdRunner`. -/
def clientStartObtainRunner (c : Client) (env : StartEnv) (childEnv : List String) :
    StartResult :=
  if c.config.runnerFuncSet then
    match env.mkdirTemp with
    | .error e => ⟨.err (.mkdirTemp e), c, false, []⟩
    | .ok dir =>
      let c := { c with unixSocketCfg := { c.unixSocketCfg with socketDir := dir } }
      if c.unixSocketCfg.group ≠ "" then
        match env.setGroupWritableErr with
        | some e => ⟨.err (.setGroupWritable e), c, false, []⟩
        | none =>
          match env.runnerFromFunc with
          | .error e => ⟨.err (.runnerCreate e), c, false, []⟩
          | .ok rid =>
            clientStartPhase4 c env (childEnv ++ [envUnixSocketDir ++ "=" ++ dir]) rid
      else
        match env.runnerFromFunc with
        | .error e => ⟨.err (.runnerCreate e), c, false, []⟩
        | .ok rid =>
          clientStartPhase4 c env (childEnv ++ [envUnixSocketDir ++ "=" ++ dir]) rid
  else
    match env.cmdRunner with
    | .error e => ⟨.err (.runnerCreate e), c, false, []⟩
    | .ok rid => clientStartPhase4 c env childEnv rid

/-- Phase 3 of `Start` (`client.go` 610–646): adopt the configured
`UnixSocketConfig`, export the group variable, and obtain a runner. -/
def clientStartPhase3 (c : Client) (env : StartEnv) (childEnv : List String) :
    StartResult :=
  let c :=
    match c.config.unixSocketConfig with
    | some u => { c with unixSocketCfg := u }
    | none => c
  let childEnv :=
    if c.unixSocketCfg.group ≠ "" then
      childEnv ++ [envUnixSocketGroup ++ "=" ++ c.unixSocketCfg.group]
    else childEnv
  clientStartObtainRunner c env childEnv

/-- Phase 2 of `Start` (`client.go` 585–608): AutoMTLS material —
generate a one-time certificate, export it to the child, and replace
the TLS configuration. -/
def clientStartPhase2 (c : Client) (env : StartEnv) (childEnv : List String) :
    StartResult :=
  if c.config.autoMTLS then
    match env.generateCert with
    | .error e => ⟨.err (.mtls e), c, false, []⟩
    | .ok certPEM =>
      clientStartPhase3 { c with config := { c.config with tlsConfigSet := true } }
        env (childEnv ++ ["PLUGIN_CLIENT_CERT=" ++ certPEM])
  else
    clientStartPhase3 c env childEnv

/-- The non-cached path of `Start` (`client.go` 519–832): validate the
mutually-exclusive launch options, build the child environment, run
the integrity check (threading the mutated hash state back into the
config), then hand off to the later phases. -/
def clientStartRun (c : Client) (env : StartEnv) : StartResult :=
  let cfg := c.config
  let n := (if cfg.cmdSet then 1 else 0) + (if cfg.reattachSet then 1 else 0) +
    (if cfg.runnerFuncSet then 1 else 0)
  if n ≠ 1 then ⟨.err .configExclusive, c, false, []⟩
  else if cfg.secureConfig.isSome && cfg.reattachSet then
    ⟨.err .secureAndReattach, c, false, []⟩
  else
    let childEnv := (if !cfg.skipHostEnv then env.osEnviron else []) ++ clientEnv cfg
    match cfg.secureConfig with
    | some sc =>
      let r := sc.check env.fs cfg.cmdPath
      let c := { c with config := { cfg with secureConfig := some r.1 } }
      match r.2.2 with
      | some e => ⟨.err (.checksumVerify e), c, false, []⟩
      | none =>
        if !r.2.1 then ⟨.err .checksumMismatch, c, false, []⟩
        else clientStartPhase2 c env childEnv
    | none => clientStartPhase2 c env childEnv

/-- `Client.Start` (`client.go` 509–832): under the client lock, return
the cached address when one is set (`client.go` 515–517); otherwise run
the full start sequence. -/
def clientStart (c : Client) (env : StartEnv) : StartResult :=
  match c.address with
  | some a => ⟨.ok a, c, false, []⟩
  | none => clientStartRun c env

/-! ## Client.Kill (`client.go` 427–501) -/

/-- The collaborator outcomes `Kill` can observe: the error from
`c.Client()` (dialing the RPC client), the error from
`client.Close()`, whether `doneCtx` fires within the 2-second grace
window, and the (logged-only) error from `runner.Kill`. -/
structure KillEnv where
  clientErr : Option String := none
  closeErr : Option String := none
  exitsWithinGrace : Bool := false
  killErr : Option String := none

/-- Observable actions of one `Kill` call. -/
structure KillTrace where
  gracefulCloseAttempted : Bool := false
  waitedGoroutines : Bool := false
  removedSocketDir : Bool := false
  forceKilled : Bool := false
  deriving DecidableEq, Repr

/-- `Client.Kill` (`client.go` 427–501): read runner/address/socket-dir
under the lock; no-op when there is no runner or its ID is empty;
otherwise attempt a graceful close when an address was obtained, wait
out the grace window on success, force-kill via the Runner otherwise,
and in the deferred block always join the goroutine wait group, remove
the temporary socket directory, and clear the runner reference. -/
def clientKill (c : Client) (env : KillEnv) : Client × KillTrace :=
  match c.runner with
  | none => (c, {})
  | some rid =>
    if rid = "" then (c, {})
    else
      let hostSocketDir := c.unixSocketCfg.socketDir
      let attempted := c.address.isSome
      let graceful := c.address.isSome && env.clientErr.isNone && env.closeErr.isNone
      if graceful && env.exitsWithinGrace then
        ({ c with runner := none },
         { gracefulCloseAttempted := attempted, waitedGoroutines := true,
           removedSocketDir := hostSocketDir ≠ "", forceKilled := false })
      else
        ({ c with runner := none, processKilled := true },
         { gracefulCloseAttempted := attempted, waitedGoroutines := true,
           removedSocketDir := hostSocketDir ≠ "", forceKilled := true })

/-! ## GRPCServer.Config (`grpc_server.go` 121–135, 145–150) -/

/-- `GRPCServerConfig` (`grpc_server.go` 147–150): the broker-assigned
stdout/stderr addresses, JSON-tagged `stdout_addr` / `stderr_addr`. -/
structure GRPCServerConfig where
  stdoutAddr : String := ""
  stderrAddr : String := ""
  deriving DecidableEq, Repr

/-- One character of Go `encoding/json` string encoding (with the
encoder's default HTML escaping): `"` and `\` are backslash-escaped,
`\n`/`\r`/`\t` use their short forms, other control characters and
`<`, `>`, `&`, U+2028, U+2029 become `\u` escapes. -/
def jsonEscapeChar (c : Char) : String :=
  let hexDigit (n : Nat) : Char :=
    if n < 10 then Char.ofNat ('0'.toNat + n) else Char.ofNat ('a'.toNat + n - 10)
  if c = '"' then "\\\""
  else if c = '\\' then "\\\\"
  else if c = '\n' then "\\n"
  else if c = '\r' then "\\r"
  else if c = '\t' then "\\t"
  else if c.toNat < 0x20 then
    ⟨['\\', 'u', '0', '0', hexDigit (c.toNat / 16), hexDigit (c.toNat % 16)]⟩
  else if c = '<' then "\\u003c"
  else if c = '>' then "\\u003e"
  else if c = '&' then "\\u0026"
  else if c.toNat = 0x2028 then "\\u2028"
  else if c.toNat = 0x2029 then "\\u2029"
  else String.singleton c

/-- Go `encoding/json` string-body encoding. -/
def jsonEscape (s : String) : String :=
  String.join (s.toList.map jsonEscapeChar)

/-- `json.Marshal` of a `GRPCServerConfig` value: field order is
declaration order, keys from the struct tags. -/
def grpcServerConfigJSON (c : GRPCServerConfig) : String :=
  "\x7b\"stdout_addr\":\"" ++ jsonEscape c.stdoutAddr ++
    "\",\"stderr_addr\":\"" ++ jsonEscape c.stderrAddr ++ "\"\x7d"

/-- `GRPCServer.Config` (`grpc_server.go` 122–135): despite the doc
comment "encoded as JSON then base64", the body only runs
`json.NewEncoder(&buf).Encode(s.config)` into the buffer — there is no
base64 writer — and `Encoder.Encode` appends a newline.  (The `config`
field is also never assigned anywhere in the sources, so the struct
encoded is always the zero value; this model still takes the record as
a parameter so the output shape is visible for any field values.) -/
def grpcServerConfigOutput (c : GRPCServerConfig) : String :=
  grpcServerConfigJSON c ++ "\n"

/-! ## Structured stderr relay (`client.go` 892–976) -/

/-- A structured log record as produced by the repository's `parseJSON`
helper: a message plus flat key/value pairs.  Modelled from the spec:
`parseJSON` and `flattenKVPairs` live in repository files not provided
here, so the parser is a *parameter* of the relay model and
`flattenKVPairs` ("its key/value pairs are flattened", per the spec)
is the identity on the already-flat pairs of this record. -/
structure LogEntry where
  message : String
  kvPairs : List (String × String)
  deriving DecidableEq, Repr

/-- Modelled from the spec: see `LogEntry`. -/
def flattenKVPairs (kvs : List (String × String)) : List (String × String) :=
  kvs

/-- The four levels the relay logger distinguishes. -/
inductive LogLevel where
  | debug
  | info
  | warn
  | error
  deriving DecidableEq, Repr

/-- Observable actions of the relay, in order: a verbatim write of the
line bytes to the raw stderr sink (`c.config.Stderr.Write(line)`), the
restored line terminator (`Write([]byte{'\n'})`), or a leveled log
event. -/
inductive RelayEvent where
  | rawWrite (line : String)
  | rawNewline
  | log (lvl : LogLevel) (msg : String) (kvs : List (String × String))
  deriving DecidableEq, Repr

/-- Level inference from the conventional bracketed prefixes
(`client.go` 936–949); `[TRACE]` and `[DEBUG]` both map to debug, and
anything unrecognized defaults to debug. -/
def inferLevel (line : String) : LogLevel :=
  if goHasPrefix line "[TRACE]" then .debug
  else if goHasPrefix line "[DEBUG]" then .debug
  else if goHasPrefix line "[INFO]" then .info
  else if goHasPrefix line "[WARN]" then .warn
  else if goHasPrefix line "[ERROR]" then .error
  else .debug

/-- One iteration of the `logStderr` read loop (`client.go` 903–975)
on a successful `ReadLine` returning `(line, isPrefix)`:
the line is first copied verbatim to the raw sink; a buffer-overflow
fragment or a continuation of one is logged at debug without parsing
(with the newline restored once the logical line completes); a
complete line gets its terminator restored and is then parsed — on
parse failure logged whole at the inferred level, on success logged at
debug with the record's flattened pairs.  Returns the next
`continuation` flag and the emitted events. -/
def relayStep (parse : String → Option LogEntry) (continuation : Bool)
    (line : String) (isPref : Bool) : Bool × List RelayEvent :=
  if isPref || continuation then
    (isPref,
     [.rawWrite line, .log .debug line []] ++
       if !isPref then [.rawNewline] else [])
  else
    match parse line with
    | none =>
      (false, [.rawWrite line, .rawNewline, .log (inferLevel line) line []])
    | some entry =>
      (false,
       [.rawWrite line, .rawNewline,
        .log .debug entry.message (flattenKVPairs entry.kvPairs)])

/-- The whole relay loop over a stream of successful reads (the loop
exits at EOF; a `ReadLine` error is logged and exits, with no raw-sink
write — not reachable from a read list). -/
def logStderr (parse : String → Option LogEntry) :
    Bool → List (String × Bool) → List RelayEvent
  | _, [] => []
  | continuation, (line, isPref) :: rest =>
    let step := relayStep parse continuation line isPref
    step.2 ++ logStderr parse step.1 rest

/-! ## Helper lemmas -/

/-- Each 4-character quantum of unpadded base64 yields 3 bytes and a
trailing quantum at most 2, so `4 * |decoded| ≤ 3 * |encoded|`. -/
theorem rawB64DecodeChars_length_le :
    ∀ (cs : List Char) (bs : List Nat), rawB64DecodeChars cs = some bs →
      4 * bs.length ≤ 3 * cs.length
  | [], bs, h => by
    simp [rawB64DecodeChars] at h
    simp [← h]
  | [c1], bs, h => by
    simp [rawB64DecodeChars] at h
  | [c1, c2], bs, h => by
    cases h1 : b64Val c1 <;> cases h2 : b64Val c2 <;>
      simp [rawB64DecodeChars, h1, h2] at h
    simp [← h]
  | [c1, c2, c3], bs, h => by
    cases h1 : b64Val c1 <;> cases h2 : b64Val c2 <;> cases h3 : b64Val c3 <;>
      simp [rawB64DecodeChars, h1, h2, h3] at h
    simp [← h]
  | c1 :: c2 :: c3 :: c4 :: rest, bs, h => by
    cases h1 : b64Val c1 <;> cases h2 : b64Val c2 <;> cases h3 : b64Val c3 <;>
      cases h4 : b64Val c4 <;> cases h5 : rawB64DecodeChars rest <;>
      simp [rawB64DecodeChars, h1, h2, h3, h4, h5] at h
    case _ tl =>
      have ih := rawB64DecodeChars_length_le rest tl h5
      simp [← h]
      omega

/-- A successful `Start` phase-4 result carries the resolved address in
the returned state. -/
theorem clientStartPhase4_ok_address (c : Client) (env : StartEnv)
    (ce : List String) (rid : String) (a : NetAddr)
    (h : (clientStartPhase4 c env ce rid).out = .ok a) :
    (clientStartPhase4 c env ce rid).state.address = some a := by
  have key : ∀ r : StartResult, clientStartPhase4 c env ce rid = r →
      r.out = .ok a → r.state.address = some a := by
    intro r hr hout
    unfold clientStartPhase4 at hr
    dsimp only at hr
    repeat' split at hr
    all_goals rw [← hr] at hout ⊢
    all_goals simp_all
  exact key _ rfl h

/-- Lifting of `clientStartPhase4_ok_address` over the runner switch. -/
theorem clientStartObtainRunner_ok_address (c : Client) (env : StartEnv)
    (ce : List String) (a : NetAddr)
    (h : (clientStartObtainRunner c env ce).out = .ok a) :
    (clientStartObtainRunner c env ce).state.address = some a := by
  have key : ∀ r : StartResult, clientStartObtainRunner c env ce = r →
      r.out = .ok a → r.state.address = some a := by
    intro r hr hout
    unfold clientStartObtainRunner at hr
    dsimp only at hr
    repeat' split at hr
    all_goals rw [← hr] at hout ⊢
    all_goals
      first
      | (exact clientStartPhase4_ok_address _ _ _ _ _ hout)
      | simp_all
  exact key _ rfl h

/-- Lifting over phase 3. -/
theorem clientStartPhase3_ok_address (c : Client) (env : StartEnv)
    (ce : List String) (a : NetAddr)
    (h : (clientStartPhase3 c env ce).out = .ok a) :
    (clientStartPhase3 c env ce).state.address = some a := by
  have key : ∀ r : StartResult, clientStartPhase3 c env ce = r →
      r.out = .ok a → r.state.address = some a := by
    intro r hr hout
    unfold clientStartPhase3 at hr
    dsimp only at hr
    repeat' split at hr
    all_goals rw [← hr] at hout ⊢
    all_goals exact clientStartObtainRunner_ok_address _ _ _ _ hout
  exact key _ rfl h

/-- Lifting over phase 2. -/
theorem clientStartPhase2_ok_address (c : Client) (env : StartEnv)
    (ce : List String) (a : NetAddr)
    (h : (clientStartPhase2 c env ce).out = .ok a) :
    (clientStartPhase2 c env ce).state.address = some a := by
  have key : ∀ r : StartResult, clientStartPhase2 c env ce = r →
      r.out = .ok a → r.state.address = some a := by
    intro r hr hout
    unfold clientStartPhase2 at hr
    dsimp only at hr
    repeat' split at hr
    all_goals rw [← hr] at hout ⊢
    all_goals
      first
      | (exact clientStartPhase3_ok_address _ _ _ _ hout)
      | simp_all
  exact key _ rfl h

/-- Lifting over the validation/integrity phase. -/
theorem clientStartRun_ok_address (c : Client) (env : StartEnv) (a : NetAddr)
    (h : (clientStartRun c env).out = .ok a) :
    (clientStartRun c env).state.address = some a := by
  have key : ∀ r : StartResult, clientStartRun c env = r →
      r.out = .ok a → r.state.address = some a := by
    intro r hr hout
    unfold clientStartRun at hr
    dsimp only at hr
    repeat' split at hr
    all_goals rw [← hr] at hout ⊢
    all_goals
      first
      | (exact clientStartPhase2_ok_address _ _ _ _ hout)
      | simp_all
  exact key _ rfl h

/-- A successful `Start` records the address it returns. -/
theorem clientStart_ok_address (c : Client) (env : StartEnv) (a : NetAddr)
    (h : (clientStart c env).out = .ok a) :
    (clientStart c env).state.address = some a := by
  have key : ∀ r : StartResult, clientStart c env = r →
      r.out = .ok a → r.state.address = some a := by
    intro r hr hout
    unfold clientStart at hr
    repeat' split at hr
    all_goals rw [← hr] at hout ⊢
    · simp_all
    · exact clientStartRun_ok_address _ _ _ hout
  exact key _ rfl h

/-! ## Claim theorems -/

/-- C1: the claim says `Start` checks the version→plugin-set mapping
against the application protocol version parsed from the handshake
line (the second pipe-delimited field).  On the handshake line
`"1|2|tcp|127.0.0.1:1234|grpc"` with version 2 configured, the second
field is `"2"` and negotiating with it would succeed — but the source
calls `checkProtoVersion("1")` with a hardcoded string, so `Start`
returns the negotiation error naming offered version 1 and configured
versions `[2]` instead of selecting the configured set. -/
theorem c1_start_probes_hardcoded_version :
    (splitN (goTrimSpace "1|2|tcp|127.0.0.1:1234|grpc") '|' 6).get? 1 = some "2"
    ∧ checkProtoVersion [(2, ["counter"])] "2" = .ok 2 ["counter"]
    ∧ processHandshakeLine [(2, ["counter"])] idHostEnv "1|2|tcp|127.0.0.1:1234|grpc"
        = .err (.negotiation 1 [2]) := by
  decide

/-- C2 (counterexample): a sixth handshake field of 51 `'A'`s decodes
to 38 bytes — at most 50 — yet the gate fires (it tests the *encoded*
length) and the field is loaded as a certificate, producing a
certificate-parse error; the claim says such a field is never loaded
and never causes a parse error. -/
theorem c2_decoded_length_counterexample :
    rawB64Decode ⟨List.replicate 51 'A'⟩ = some (List.replicate 38 0)
    ∧ (List.replicate 38 (0 : Nat)).length ≤ 50
    ∧ certField ["1", "1", "tcp", "127.0.0.1:1", "grpc", ⟨List.replicate 51 'A'⟩]
        = some ⟨List.replicate 51 'A'⟩
    ∧ processHandshakeLine [(1, ["p"])]
        { idHostEnv with parseCert := fun _ => .error "x509: malformed certificate" }
        ("1|1|tcp|127.0.0.1:1|grpc|" ++ ⟨List.replicate 51 'A'⟩)
        = .err (.serverCert "x509: malformed certificate") := by
  decide

/-- C2 (amended): the sixth field is treated as a server certificate
iff its *encoded* text length exceeds 50 characters; since `n` base64
characters decode to at most `3n/4` bytes, every field whose decoded
length exceeds 50 bytes is treated as a certificate, but so are fields
of 38–50 decoded bytes. -/
theorem c2_cert_gate_encoded_length (parts : List String) (p5 : String) (bs : List Nat)
    (h5 : parts.get? 5 = some p5) :
    (certField parts = some p5 ↔ 50 < p5.length)
    ∧ (rawB64Decode p5 = some bs → 50 < bs.length → certField parts = some p5) := by
  constructor
  · unfold certField
    rw [h5]
    by_cases hl : p5.length > 50 <;> simp [hl]
  · intro hdec hlen
    have hle := rawB64DecodeChars_length_le p5.toList bs hdec
    have hlen5 : 50 < p5.length := by
      have he : p5.length = p5.toList.length := rfl
      omega
    unfold certField
    rw [h5]
    simp [hlen5]

/-- Witness for `c2_cert_gate_encoded_length`: a 68-character sixth
field decodes to 51 bytes and the gate fires. -/
theorem c2_cert_gate_encoded_length_witness :
    certField ["1", "1", "tcp", "127.0.0.1:1", "grpc", ⟨List.replicate 68 'A'⟩]
      = some ⟨List.replicate 68 'A'⟩ :=
  (c2_cert_gate_encoded_length ["1", "1", "tcp", "127.0.0.1:1", "grpc", ⟨List.replicate 68 'A'⟩]
    ⟨List.replicate 68 'A'⟩ (List.replicate 51 0) (by decide)).2 (by decide) (by decide)

/-- C3: the claim says a handshake line with fewer than four parts
yields a negotiation error rather than a panic.  The guard
`len(parts) < 4` is commented out in the source, so on the line
`"foo"` (one part) with version 1 configured, `Start` indexes
`parts[2]` out of range and panics (the deferred `recover` re-raises
it), instead of returning an error. -/
theorem c3_malformed_line_panics :
    splitN (goTrimSpace "foo") '|' 6 = ["foo"]
    ∧ processHandshakeLine [(1, ["p"])] idHostEnv "foo"
        = .panicked "runtime error: index out of range" := by
  decide

/-- C4: `Check` returns `(s, false, noChecksum)` on an empty checksum,
`(s, false, noHash)` when no hash is configured, propagates the
underlying I/O error when the file cannot be opened or read, and on a
successful read returns no error with the match boolean true iff the
file's digest under the configured (fresh) hash equals the configured
checksum bytes. -/
theorem c4_check_error_taxonomy (s : SecureConfig) (fs : FileSystem) (p : String) :
    (s.checksum = [] → s.check fs p = (s, false, some .noChecksum))
    ∧ (s.checksum ≠ [] → s.hash = none → s.check fs p = (s, false, some .noHash))
    ∧ (∀ h e, s.checksum ≠ [] → s.hash = some h → fs p = .error e →
        s.check fs p = (s, false, some (.io e)))
    ∧ (∀ h content, s.checksum ≠ [] → s.hash = some h → h.state = [] → fs p = .ok content →
        (s.check fs p).2.2 = none
        ∧ ((s.check fs p).2.1 = true ↔ h.digest content = s.checksum)) := by
  refine ⟨?_, ?_, ?_, ?_⟩
  · intro hc
    simp [SecureConfig.check, hc]
  · intro hc hh
    simp [SecureConfig.check, hc, hh]
  · intro h e hc hh he
    simp [SecureConfig.check, hc, hh, he]
  · intro h content hc hh hst hok
    simp [SecureConfig.check, hc, hh, hok, hst]

/-- Witness for `c4_check_error_taxonomy`: a matching one-byte file
under a length-digest hash checks out. -/
theorem c4_check_error_taxonomy_witness :
    (({ checksum := [1], hash := some { state := [], digest := fun l => [l.length] } }
        : SecureConfig).check (fun _ => .ok [0]) "bin").2.1 = true := by
  have h := (c4_check_error_taxonomy
    { checksum := [1], hash := some { state := [], digest := fun l => [l.length] } }
    (fun _ => .ok [0]) "bin").2.2.2
    { state := [], digest := fun l => [l.length] } [0] (by decide) rfl rfl rfl
  exact h.2.mpr (by decide)

/-- C5 (counterexample): the claim says two successive `Check` calls on
the same unchanged file return the same result.  With a (legitimately
stateful) hash whose digest is the absorbed length, checksum `[1]` and
a one-byte file, the first call returns `(true, nil)` and the second
`(false, nil)` — the hash is never reset, so the second call digests
the doubled stream. -/
theorem c5_check_not_pure_counterexample :
    ((({ checksum := [1], hash := some { state := [], digest := fun l => [l.length] } }
        : SecureConfig).check (fun _ => .ok [0]) "bin").2.1 = true
     ∧ (({ checksum := [1], hash := some { state := [], digest := fun l => [l.length] } }
        : SecureConfig).check (fun _ => .ok [0]) "bin").2.2 = none)
    ∧ (((({ checksum := [1], hash := some { state := [], digest := fun l => [l.length] } }
        : SecureConfig).check (fun _ => .ok [0]) "bin").1.check (fun _ => .ok [0]) "bin").2.1 = false
     ∧ ((({ checksum := [1], hash := some { state := [], digest := fun l => [l.length] } }
        : SecureConfig).check (fun _ => .ok [0]) "bin").1.check (fun _ => .ok [0]) "bin").2.2 = none) := by
  decide

/-- C5 (amended): `Check` is deterministic but threads the hash's
accumulated state: the calls that fail before reading the file (empty
checksum, missing hash, unreadable file) leave the config unchanged
and repeat identically, while a successful call appends the file to
the hash state, its match being `digest(state ++ content) = checksum`,
and an immediately repeated call matching
`digest(state ++ content ++ content) = checksum`. -/
theorem c5_check_state_threading (s : SecureConfig) (fs : FileSystem) (p : String) :
    (s.checksum = [] ∨ s.hash = none ∨ (∃ e, fs p = .error e) →
      (s.check fs p).1 = s ∧ (s.check fs p).1.check fs p = s.check fs p)
    ∧ (∀ h content, s.checksum ≠ [] → s.hash = some h → fs p = .ok content →
        (s.check fs p).1.hash = some { state := h.state ++ content, digest := h.digest }
        ∧ ((s.check fs p).2.1 = true ↔ h.digest (h.state ++ content) = s.checksum)
        ∧ (((s.check fs p).1.check fs p).2.1 = true ↔
            h.digest (h.state ++ content ++ content) = s.checksum)) := by
  constructor
  · intro hd
    have h1 : (s.check fs p).1 = s := by
      rcases hd with hc | hh | ⟨e, he⟩
      · simp [SecureConfig.check, hc]
      · unfold SecureConfig.check
        split
        · rfl
        · simp [hh]
      · unfold SecureConfig.check
        split
        · rfl
        · cases hs : s.hash with
          | none => simp
          | some h => simp [he]
    exact ⟨h1, by rw [h1]⟩
  · intro h content hc hh hok
    refine ⟨?_, ?_, ?_⟩
    · simp [SecureConfig.check, hc, hh, hok]
    · simp [SecureConfig.check, hc, hh, hok]
    · simp [SecureConfig.check, hc, hh, hok]

/-- Witness for `c5_check_state_threading`: the repeated call of the
counterexample configuration returns a mismatch. -/
theorem c5_check_state_threading_witness :
    ((({ checksum := [1], hash := some { state := [], digest := fun l => [l.length] } }
        : SecureConfig).check (fun _ => .ok [0]) "bin").1.check (fun _ => .ok [0]) "bin").2.1
      = false := by
  have h := (c5_check_state_threading
    { checksum := [1], hash := some { state := [], digest := fun l => [l.length] } }
    (fun _ => .ok [0]) "bin").2
    { state := [], digest := fun l => [l.length] } [0] (by decide) rfl rfl
  cases hb : ((({ checksum := [1], hash := some { state := [], digest := fun l => [l.length] } }
      : SecureConfig).check (fun _ => .ok [0]) "bin").1.check (fun _ => .ok [0]) "bin").2.1 with
  | false => rfl
  | true => exact absurd (h.2.2.mp hb) (by decide)

/-- C6: the claim says base64-decoding `Config()`'s output and then
JSON-decoding yields the configured addresses.  The source only
JSON-encodes (the base64 wrap promised by its doc comment is missing),
so the output is the raw JSON record plus a newline and base64
decoding fails on it. -/
theorem c6_config_output_is_plain_json :
    grpcServerConfigOutput { stdoutAddr := "127.0.0.1:10", stderrAddr := "127.0.0.1:11" }
      = "\x7b\"stdout_addr\":\"127.0.0.1:10\",\"stderr_addr\":\"127.0.0.1:11\"\x7d\n"
    ∧ stdB64Decode (grpcServerConfigOutput
        { stdoutAddr := "127.0.0.1:10", stderrAddr := "127.0.0.1:11" }) = none := by
  decide

/-- C7: `Start` is idempotent — after a `Start` that returned address
`a`, a second call (under any collaborator environment) returns the
identical cached address, performs no spawn, and leaves the client
state unchanged. -/
theorem c7_start_idempotent (c : Client) (env env2 : StartEnv) (a : NetAddr)
    (h : (clientStart c env).out = .ok a) :
    clientStart (clientStart c env).state env2 =
      ⟨.ok a, (clientStart c env).state, false, []⟩ := by
  have haddr := clientStart_ok_address c env a h
  generalize hs : (clientStart c env).state = s at haddr ⊢
  unfold clientStart
  simp [haddr]

/-- Witness for `c7_start_idempotent`: a full successful start over the
default runner path, then a second call that would otherwise time
out. -/
theorem c7_start_idempotent_witness :
    clientStart
      (clientStart { config := { cmdSet := true, versionedPlugins := [(1, ["p"])] } }
        { race := .line "1|1|tcp|127.0.0.1:1234|grpc" }).state
      { race := .timeout } =
    ⟨.ok (.tcp "127.0.0.1:1234"),
     (clientStart { config := { cmdSet := true, versionedPlugins := [(1, ["p"])] } }
        { race := .line "1|1|tcp|127.0.0.1:1234|grpc" }).state, false, []⟩ :=
  c7_start_idempotent _ _ _ _ (by decide)

/-- C8: for a started client (non-empty runner ID), `Kill` attempts the
graceful close exactly when an address was obtained, skips the force
kill iff the close succeeded and the process exited within the grace
window, always joins the goroutines, removes the temporary socket
directory iff one was created, clears the runner reference, and a
subsequent `Kill` is a no-op. -/
theorem c8_kill_graceful_then_forced (c : Client) (env env2 : KillEnv) (rid : String)
    (hr : c.runner = some rid) (hid : rid ≠ "") :
    (clientKill c env).2.gracefulCloseAttempted = c.address.isSome
    ∧ ((clientKill c env).2.forceKilled = false ↔
        (c.address.isSome = true ∧ env.clientErr = none ∧ env.closeErr = none ∧
         env.exitsWithinGrace = true))
    ∧ (clientKill c env).2.waitedGoroutines = true
    ∧ ((clientKill c env).2.removedSocketDir = true ↔ c.unixSocketCfg.socketDir ≠ "")
    ∧ (clientKill c env).1.runner = none
    ∧ clientKill (clientKill c env).1 env2 = ((clientKill c env).1, {}) := by
  unfold clientKill
  rw [hr]
  simp only [hid, if_false]
  by_cases hcond : ((c.address.isSome && env.clientErr.isNone && env.closeErr.isNone)
      && env.exitsWithinGrace) = true
  case pos =>
    simp only [Bool.and_eq_true, Option.isNone_iff_eq_none] at hcond
    obtain ⟨⟨⟨ha, hce⟩, hcl⟩, hgr⟩ := hcond
    simp [ha, hce, hcl, hgr]
  case neg =>
    rw [Bool.not_eq_true] at hcond
    have hnot : ¬(c.address.isSome = true ∧ env.clientErr = none ∧
        env.closeErr = none ∧ env.exitsWithinGrace = true) := by
      rintro ⟨ha, hce, hcl, hgr⟩
      rw [ha, hce, hcl, hgr] at hcond
      simp at hcond
    simp [hcond, hnot]

/-- Witness for `c8_kill_graceful_then_forced`: a started client with a
socket directory, graceful close succeeding within the grace window. -/
theorem c8_kill_graceful_then_forced_witness :
    (clientKill
      { config := {}, runner := some "pid-1", address := some (.tcp "127.0.0.1:1"),
        unixSocketCfg := { socketDir := "/tmp/plugin-dir" } }
      { exitsWithinGrace := true }).2.forceKilled = false
    ∧ (clientKill
      { config := {}, runner := some "pid-1", address := some (.tcp "127.0.0.1:1"),
        unixSocketCfg := { socketDir := "/tmp/plugin-dir" } }
      { exitsWithinGrace := true }).1.runner = none := by
  have h := c8_kill_graceful_then_forced
    { config := {}, runner := some "pid-1", address := some (.tcp "127.0.0.1:1"),
      unixSocketCfg := { socketDir := "/tmp/plugin-dir" } }
    { exitsWithinGrace := true } {} "pid-1" rfl (by decide)
  exact ⟨h.2.1.mpr ⟨rfl, rfl, rfl, rfl⟩, h.2.2.2.2.1⟩

/-- C9: each complete stderr line is written verbatim to the raw sink,
then its terminator is restored, and only then is it logged — at the
level inferred from its bracketed prefix on parse failure
(`"[WARN] disk low"` at warn, unrecognized prefixes at debug), or at
debug with the record's flattened key/value pairs on parse success;
an over-long fragment is forwarded verbatim and logged at debug as an
incomplete fragment without parsing, its newline restored when the
logical line completes. -/
theorem c9_stderr_relay (parse : String → Option LogEntry) (line l2 : String)
    (entry : LogEntry) :
    (parse line = none →
      relayStep parse false line false =
        (false, [.rawWrite line, .rawNewline, .log (inferLevel line) line []]))
    ∧ (parse line = some entry →
      relayStep parse false line false =
        (false, [.rawWrite line, .rawNewline, .log .debug entry.message entry.kvPairs]))
    ∧ (parse "[WARN] disk low" = none →
      relayStep parse false "[WARN] disk low" false =
        (false, [.rawWrite "[WARN] disk low", .rawNewline,
                 .log .warn "[WARN] disk low" []]))
    ∧ (goHasPrefix line "[TRACE]" = false → goHasPrefix line "[DEBUG]" = false →
       goHasPrefix line "[INFO]" = false → goHasPrefix line "[WARN]" = false →
       goHasPrefix line "[ERROR]" = false → inferLevel line = .debug)
    ∧ relayStep parse false line true = (true, [.rawWrite line, .log .debug line []])
    ∧ relayStep parse true l2 false =
        (false, [.rawWrite l2, .log .debug l2 [], .rawNewline]) := by
  refine ⟨?_, ?_, ?_, ?_, ?_, ?_⟩
  · intro hp
    simp [relayStep, hp]
  · intro hp
    simp [relayStep, hp, flattenKVPairs]
  · intro hp
    simp [relayStep, hp]
    decide
  · intro h1 h2 h3 h4 h5
    simp [inferLevel, h1, h2, h3, h4, h5]
  · simp [relayStep]
  · simp [relayStep]

/-- Witness for `c9_stderr_relay`: the spec's `"[WARN] disk low"`
example under a parser that rejects it. -/
theorem c9_stderr_relay_witness :
    relayStep (fun _ => none) false "[WARN] disk low" false =
      (false, [.rawWrite "[WARN] disk low", .rawNewline,
               .log .warn "[WARN] disk low" []]) :=
  (c9_stderr_relay (fun _ => none) "x" "y" { message := "m", kvPairs := [] }).2.2.1 rfl

/-- C10: when the caller sets at least one port bound, `NewClient`
leaves both bounds exactly as given (no default), and the environment
`Start` builds exports those same values — including a zero — in
`PLUGIN_MIN_PORT` / `PLUGIN_MAX_PORT`. -/
theorem c10_port_defaults_one_sided (cfg : ClientConfig)
    (h : ¬(cfg.minPort = 0 ∧ cfg.maxPort = 0)) :
    (newClient cfg).config.minPort = cfg.minPort
    ∧ (newClient cfg).config.maxPort = cfg.maxPort
    ∧ (clientEnv (newClient cfg).config).get? 1 =
        some ("PLUGIN_MIN_PORT=" ++ toString cfg.minPort)
    ∧ (clientEnv (newClient cfg).config).get? 2 =
        some ("PLUGIN_MAX_PORT=" ++ toString cfg.maxPort) := by
  unfold newClient
  simp only [h, if_false]
  split <;> simp [clientEnv]

/-- Witness for `c10_port_defaults_one_sided`: only `MaxPort` set, so
`MinPort` stays zero and is exported as `PLUGIN_MIN_PORT=0`. -/
theorem c10_port_defaults_one_sided_witness :
    (newClient { maxPort := 7 }).config.minPort = 0
    ∧ (clientEnv (newClient { maxPort := 7 }).config).get? 1 = some "PLUGIN_MIN_PORT=0" := by
  have h := c10_port_defaults_one_sided { maxPort := 7 } (by decide)
  exact ⟨h.1, by rw [h.2.2.1]; rfl⟩

end Plugin
